import Mathlib

/-!
# Verification of the `proccomm` point-to-point relay

A shallow embedding of the two source files of the repository
(`source/socket.c` and `source/procom.c`) together with theorems that
settle the specification claims about them.

Conventions of the embedding:

* C bytes (`char`) are `Nat` values; `'\0'` is `0` and `'\n'` is `10`.
* File descriptors are `Int`; the closed sentinel is `-1`.
* The operating system is an explicit environment: results of `recv`
  calls form a list of `RecvRes`, results of `send` calls are given by
  an oracle `Nat → SendRes` (indexed by buffer position), and results
  of `socket`/`connect`/`bind`/`listen`/`accept`/`close` syscalls are
  fields of a `NetEnv` record.
* C `for` loops bounded by `index < size` are encoded with an explicit
  fuel argument equal to `size - index`, keeping the running `index`
  alongside; this is a direct re-encoding of the loop counter.
-/

/-! ## Bytes and syscall outcomes -/

/-- Outcome of one `recv(sockfd, &symbol, 1, 0)` call: a received byte,
end of file (`recv` returned 0), or an error (`recv` returned -1). -/
inductive RecvRes where
  | byte (b : Nat)
  | eof
  | err
deriving DecidableEq, Repr

/-- Outcome of one `send(sockfd, &symbol, 1, 0)` call: the byte was
sent (`send` returned 1), nothing was sent (`send` returned 0), or an
error (`send` returned -1). -/
inductive SendRes where
  | ok
  | zero
  | err
deriving DecidableEq, Repr

/-! ## `socket_read` (source/socket.c, lines 276-292)

```c
ssize_t socket_read(int sockfd, char* buffer, size_t size)
{
  char symbol = '\0';
  ssize_t index;

  for(index = 0; index < size && symbol != '\n'; index++)
  {
    ssize_t status = recv(sockfd, &symbol, 1, 0);

    if(status == -1) return -1; // ERROR

    buffer[index] = symbol;

    if(status == 0) return 0; // END OF FILE

  }
  return index;
}
```

The loop is encoded with fuel `size - index`.  `recv` outcomes are the
entries of `stream`; `recv` returning 0 does not modify `symbol`, so in
that case the previous `symbol` is stored at `buffer[index]` (exactly as
in the C).  The result is the returned `ssize_t`, the bytes stored in
the buffer (in order, starting at position 0), and the unconsumed rest
of the stream. -/
def socketReadAux : List RecvRes → Nat → Nat → Nat → List Nat →
    Int × List Nat × List RecvRes
  | stream, 0, index, _symbol, acc => ((index : Int), acc, stream)
  | stream, fuel + 1, index, symbol, acc =>
    if symbol = 10 then ((index : Int), acc, stream)
    else
      match stream with
      | [] => (0, acc ++ [symbol], [])
      | .err :: rest => (-1, acc, rest)
      | .eof :: rest => (0, acc ++ [symbol], rest)
      | .byte b :: rest => socketReadAux rest fuel (index + 1) b (acc ++ [b])

/-- `socket_read`: result value, buffer contents, unconsumed stream. -/
def socket_read (stream : List RecvRes) (size : Nat) :
    Int × List Nat × List RecvRes :=
  socketReadAux stream size 0 0 []

/-! ## `socket_write` (source/socket.c, lines 302-320)

```c
ssize_t socket_write(int sockfd, const char* buffer, size_t size)
{
  ssize_t index;
  char symbol;

  for(index = 0; index < size; index++)
  {
    symbol = buffer[index];

    ssize_t status = send(sockfd, &symbol, 1, 0);

    if(status == -1) return -1; // ERROR

    if(status == 0) return 0; // End of File

    if(symbol == '\0' || symbol == '\n') break; // END OF FILE
  }
  return index;
}
```

The buffer is a total function `Nat → Nat` (C memory), `sends i` is the
outcome of the `send` call for buffer position `i`, and the result is
the returned `ssize_t` together with the list of bytes actually
transmitted (those whose `send` returned 1), in transmission order. -/
def socketWriteAux (bufFn : Nat → Nat) (sends : Nat → SendRes) :
    Nat → Nat → List Nat → Int × List Nat
  | 0, index, acc => ((index : Int), acc)
  | fuel + 1, index, acc =>
    match sends index with
    | .err => (-1, acc)
    | .zero => (0, acc)
    | .ok =>
      if bufFn index = 0 ∨ bufFn index = 10 then ((index : Int), acc ++ [bufFn index])
      else socketWriteAux bufFn sends fuel (index + 1) (acc ++ [bufFn index])

/-- `socket_write`: result value and transmitted bytes. -/
def socket_write (bufFn : Nat → Nat) (sends : Nat → SendRes) (size : Nat) :
    Int × List Nat :=
  socketWriteAux bufFn sends size 0 []

/-- A send oracle where every `send` succeeds. -/
def allSendsOk : Nat → SendRes := fun _ => .ok

/-! ## Network syscall environment and events -/

/-- Results the operating system gives to the network syscalls made
during socket-role negotiation.  A file-descriptor field equal to `-1`
models failure of the corresponding syscall. -/
structure NetEnv where
  /-- result of `socket()` inside `client_socket_create` -/
  clientSockFd : Int
  /-- whether `connect()` succeeds -/
  connectOk : Bool
  /-- result of `socket()` inside `server_socket_create` -/
  servSockFd : Int
  /-- whether `bind()` succeeds -/
  bindOk : Bool
  /-- whether `listen()` succeeds -/
  listenOk : Bool
  /-- result of `accept()` -/
  acceptFd : Int
  /-- whether `close()` succeeds -/
  closeOk : Bool
deriving DecidableEq, Repr

/-- Observable network syscalls, in program order. -/
inductive NetEv where
  | sockNew (fd : Int)
  | connectEv (ok : Bool)
  | bindEv (ok : Bool)
  | listenEv (backlog : Nat) (ok : Bool)
  | acceptEv (fd : Int)
  | closeEv (fd : Int)
deriving DecidableEq, Repr

/-- Whether an event is part of server-socket setup (`bind` or `listen`). -/
def NetEv.isServerSetup : NetEv → Bool
  | .bindEv _ => true
  | .listenEv _ _ => true
  | _ => false

/-- Whether an event is an `accept` call. -/
def NetEv.isAccept : NetEv → Bool
  | .acceptEv _ => true
  | _ => false

/-! ## `socket_close` (source/socket.c, lines 248-266)

```c
int socket_close(int* sockfd, bool debug)
{
  // No need to close an already closed socket
  if(*sockfd == -1) return 0;
  ...
  if(close(*sockfd) == -1)
  {
    ...
    return -1;
  }
  *sockfd = -1;
  ...
  return 0;
}
```
-/

/-- `socket_close`: given the `close()` syscall outcome and the current
descriptor, returns the status and the new descriptor value. -/
def socket_close (closeOk : Bool) (fd : Int) : Int × Int :=
  if fd = -1 then (0, -1)
  else if closeOk then (0, -1)
  else (-1, fd)

/-- Repeated `socket_close` calls on the same handle: the list of
returned statuses and the final descriptor value. -/
def socket_close_iter (oks : List Bool) (fd : Int) : List Int × Int :=
  match oks with
  | [] => ([], fd)
  | ok :: rest =>
    let r := socket_close ok fd
    let rs := socket_close_iter rest r.2
    (r.1 :: rs.1, rs.2)

/-! ## Client / server socket creation (source/socket.c, lines 119-210) -/

/-- `client_socket_create` (lines 166-179): create a socket and connect
it; on connect failure the socket is closed again and `-1` returned.
Result: the returned descriptor and the syscall trace. -/
def client_socket_create (env : NetEnv) : Int × List NetEv :=
  if env.clientSockFd = -1 then (-1, [.sockNew (-1)])
  else if env.connectOk then
    (env.clientSockFd, [.sockNew env.clientSockFd, .connectEv true])
  else
    (-1, [.sockNew env.clientSockFd, .connectEv false, .closeEv env.clientSockFd])

/-- `server_socket_create` (lines 119-132): create a socket, bind it and
listen with backlog 1; on bind or listen failure the socket is closed
again and `-1` returned.  `listen` is only called when `bind` succeeded
(short-circuit `||` in the source). -/
def server_socket_create (env : NetEnv) : Int × List NetEv :=
  if env.servSockFd = -1 then (-1, [.sockNew (-1)])
  else if ¬ env.bindOk then
    (-1, [.sockNew env.servSockFd, .bindEv false, .closeEv env.servSockFd])
  else if ¬ env.listenOk then
    (-1, [.sockNew env.servSockFd, .bindEv true, .listenEv 1 false,
          .closeEv env.servSockFd])
  else
    (env.servSockFd, [.sockNew env.servSockFd, .bindEv true, .listenEv 1 true])

/-- `socket_accept` (lines 219-239): the accepted descriptor (or `-1`)
and its trace event. -/
def socket_accept (env : NetEnv) : Int × List NetEv :=
  (env.acceptFd, [.acceptEv env.acceptFd])

/-- Result of `client_or_server_socket_create`: the returned status, the
final values of the two out-parameters `*sockfd` and `*servfd`, and the
syscall trace. -/
structure CosResult where
  status : Int
  sockfd : Int
  servfd : Int
  trace : List NetEv
deriving DecidableEq, Repr

/-- `client_or_server_socket_create` (lines 190-210):

```c
int client_or_server_socket_create(int* sockfd, int* servfd, const char* address, int port, bool debug)
{
  // 1. Try to connect to a server using address and port
  *sockfd = client_socket_create(address, port, debug);

  if(*sockfd != -1) return 0;

  // 2. If no server was running, create a new server
  *servfd = server_socket_create(address, port, debug);

  if(*servfd == -1) return 1;

  // 3. Accept client connecting to server
  *sockfd = socket_accept(*servfd, address, port, debug);

  if(*sockfd != -1) return 0;

  socket_close(servfd, debug);

  return 2;
}
```

`servfd0` is the value `*servfd` holds on entry (it is only written on
the server path). -/
def client_or_server_socket_create (env : NetEnv) (servfd0 : Int) : CosResult :=
  let c := client_socket_create env
  if c.1 ≠ -1 then ⟨0, c.1, servfd0, c.2⟩
  else
    let s := server_socket_create env
    if s.1 = -1 then ⟨1, c.1, s.1, c.2 ++ s.2⟩
    else
      let a := socket_accept env
      if a.1 ≠ -1 then ⟨0, a.1, s.1, c.2 ++ s.2 ++ a.2⟩
      else
        let cl := socket_close env.closeOk s.1
        ⟨2, a.1, cl.2, c.2 ++ s.2 ++ a.2 ++ [.closeEv s.1]⟩

/-! ## Endpoint configuration and source/sink selection
(source/procom.c, lines 120-208)

The globals `stdin_fifo`, `stdout_fifo` and `sockfd` hold descriptors,
`-1` meaning absent.  The four selection functions below translate the
branch structure of `stdin_thread_read`, `stdin_thread_write`,
`stdout_thread_read` and `stdout_thread_write` literally; each returns
which endpoint the call reads from / writes to. -/

/-- The three shared descriptors of procom.c. -/
structure Fds where
  stdin_fifo : Int
  stdout_fifo : Int
  sockfd : Int
deriving DecidableEq, Repr

/-- An endpoint a transfer loop can read from or write to. -/
inductive IOEndpoint where
  | fifoIn
  | fifoOut
  | sock
  | termIn
  | termOut
deriving DecidableEq, Repr

/-- Source selected by `stdin_thread_read` (lines 123-135). -/
def stdin_thread_read_src (st : Fds) : IOEndpoint :=
  if st.stdin_fifo ≠ -1 ∧ st.sockfd ≠ -1 then .fifoIn
  else .termIn

/-- Sink selected by `stdin_thread_write` (lines 140-164). -/
def stdin_thread_write_sink (st : Fds) : IOEndpoint :=
  if st.stdin_fifo ≠ -1 ∧ st.sockfd ≠ -1 then .sock
  else if st.stdout_fifo ≠ -1 then .fifoOut
  else if st.sockfd ≠ -1 then .sock
  else .termOut

/-- Source selected by `stdout_thread_read` (lines 170-189); `none`
models branch 4, where the function returns `-1` without reading and
the loop therefore does not run. -/
def stdout_thread_read_src (st : Fds) : Option IOEndpoint :=
  if st.stdin_fifo ≠ -1 ∧ st.sockfd ≠ -1 then some .sock
  else if st.sockfd ≠ -1 then some .sock
  else if st.stdin_fifo ≠ -1 then some .fifoIn
  else none

/-- Sink selected by `stdout_thread_write` (lines 194-208). -/
def stdout_thread_write_sink (st : Fds) : IOEndpoint :=
  if st.stdout_fifo ≠ -1 ∧ st.sockfd ≠ -1 then .fifoOut
  else .termOut

/-- `stdout_routine`'s entry guard (line 216): the download loop body is
reached iff the stdin FIFO or the socket is connected. -/
def stdout_routine_runs (st : Fds) : Bool :=
  ¬ (st.stdin_fifo = -1 ∧ st.sockfd = -1)

/-! Spec-table counterparts, worded from §4.2 of the spec ("Source/sink
selection"), to be compared with the code's selection functions. -/

/-- Spec table: "Upload source: FIFO-in if both FIFO-in and socket are
active, else terminal input." -/
def spec_upload_src (st : Fds) : IOEndpoint :=
  if st.stdin_fifo ≠ -1 ∧ st.sockfd ≠ -1 then .fifoIn else .termIn

/-- Spec table: "Upload sink: socket if both FIFO-in and socket are
active; else FIFO-out if present; else socket if present; else terminal
output." -/
def spec_upload_sink (st : Fds) : IOEndpoint :=
  if st.stdin_fifo ≠ -1 ∧ st.sockfd ≠ -1 then .sock
  else if st.stdout_fifo ≠ -1 then .fifoOut
  else if st.sockfd ≠ -1 then .sock
  else .termOut

/-- Spec table: "Download source: socket if present; else FIFO-in if
present and socket absent; else this loop does not run." -/
def spec_download_src (st : Fds) : Option IOEndpoint :=
  if st.sockfd ≠ -1 then some .sock
  else if st.stdin_fifo ≠ -1 then some .fifoIn
  else none

/-- Spec table: "Download sink: FIFO-out if both FIFO-out and socket are
active; else terminal output." -/
def spec_download_sink (st : Fds) : IOEndpoint :=
  if st.stdout_fifo ≠ -1 ∧ st.sockfd ≠ -1 then .fifoOut
  else .termOut

/-! ## Transfer-loop routines (source/procom.c, lines 213-271)

Both routines have the same loop shape:

```c
while(stdin_thread_read(buffer, sizeof(buffer) - 1) > 0)
{
  stdin_thread_write(buffer, sizeof(buffer) - 1);
  memset(buffer, '\0', sizeof(buffer));
}
...
pthread_kill(stdout_thread, SIGUSR1);
```

A routine is modelled as the event trace it produces, driven by the
list of successive read return values.  An exhausted list means the
loop is still blocked in its next read, so the trace simply ends
without further events. -/

/-- The two relay threads. -/
inductive ThreadId where
  | stdinThread
  | stdoutThread
deriving DecidableEq, Repr

/-- Events a transfer loop produces. -/
inductive ThreadEv where
  | readEv (r : Int)
  | writeEv
  | killEv (t : ThreadId)
deriving DecidableEq, Repr

/-- Common loop shape of `stdin_routine` and `stdout_routine`: pump
while reads are positive, then `pthread_kill(sibling, SIGUSR1)`. -/
def relay_loop_trace (sibling : ThreadId) : List Int → List ThreadEv
  | [] => []
  | r :: rest =>
    if r > 0 then .readEv r :: .writeEv :: relay_loop_trace sibling rest
    else [.readEv r, .killEv sibling]

/-- `stdin_routine` (lines 246-271): pumps, then kills the stdout
thread. -/
def stdin_routine_trace (reads : List Int) : List ThreadEv :=
  relay_loop_trace .stdoutThread reads

/-- `stdout_routine` (lines 213-241): returns immediately when neither
the stdin FIFO nor the socket is connected; otherwise pumps, then kills
the stdin thread. -/
def stdout_routine_trace (st : Fds) (reads : List Int) : List ThreadEv :=
  if st.stdin_fifo = -1 ∧ st.sockfd = -1 then []
  else relay_loop_trace .stdinThread reads

/-- Pump events for a list of (positive) read results. -/
def pump_events (reads : List Int) : List ThreadEv :=
  reads.flatMap fun r => [.readEv r, .writeEv]

/-! ## `main` and `try_socket_create` (source/procom.c, lines 380-425) -/

/-- The option values `main` receives from argp (parsing itself is an
excluded collaborator). -/
structure ProcomArgs where
  stdin_path : Option String
  stdout_path : Option String
  address : Option String
  port : Int
  debug : Bool

/-- Environment for a whole `main` run: network syscall results plus the
outcome of `stdin_stdout_fifo_open` (defined outside these two source
files; only its zero/nonzero status reaches `main`). -/
structure MainEnv where
  net : NetEnv
  fifoOpenOk : Bool

/-- `try_socket_create` (lines 380-391): no socket when neither address
nor port was given; otherwise run the role negotiation and map its
failure to status 1.  Returns (status, `sockfd`, `servfd`). -/
def try_socket_create (args : ProcomArgs) (env : NetEnv)
    (sockfd0 servfd0 : Int) : Int × Int × Int :=
  if args.address = none ∧ args.port = -1 then (0, sockfd0, servfd0)
  else
    let r := client_or_server_socket_create env servfd0
    if r.status ≠ 0 then (1, r.sockfd, r.servfd)
    else (0, r.sockfd, r.servfd)

/-- What a `main` run yields: the process exit status, whether the
transfer threads were started, and the final socket descriptors after
the closing sequence at the end of `main`. -/
structure MainResult where
  exit_code : Int
  threads_started : Bool
  sockfd : Int
  servfd : Int

/-- `main` (lines 398-425): negotiate the socket role, open FIFOs and
start the threads only if both succeeded, close everything, and return
0 unconditionally (line 424). -/
def procom_main (args : ProcomArgs) (env : MainEnv) : MainResult :=
  let t := try_socket_create args env.net (-1) (-1)
  let started := decide (t.1 = 0) && env.fifoOpenOk
  let c1 := socket_close env.net.closeOk t.2.1
  let c2 := socket_close env.net.closeOk t.2.2
  { exit_code := 0
    threads_started := started
    sockfd := c1.2
    servfd := c2.2 }

/-! ## One relay step (source/procom.c, lines 222-229)

```c
  char buffer[1024];
  memset(buffer, '\0', sizeof(buffer));

  while(stdout_thread_read(buffer, sizeof(buffer) - 1) > 0)
  {
    stdout_thread_write(buffer, sizeof(buffer) - 1);

    memset(buffer, '\0', sizeof(buffer));
  }
```
-/

/-- One read-then-write relay step with the routines' 1024-byte
zeroed buffer: `socket_read(buffer, 1023)` fills positions `0 ..` with
the read bytes (the rest keep their memset value 0), and if the read
returned a positive count the buffer is written with size 1023.
Result: read return value, bytes put on the outgoing wire, unconsumed
incoming stream. -/
def relay_step (stream : List RecvRes) (sends : Nat → SendRes) :
    Int × List Nat × List RecvRes :=
  let r := socket_read stream 1023
  if r.1 > 0 then
    let w := socket_write (fun i => r.2.1.getD i 0) sends 1023
    (r.1, w.2, r.2.2)
  else (r.1, [], r.2.2)

/-- Number of recv outcomes consumed from the stream by one
`socket_read` call. -/
def socket_read_consumed (stream : List RecvRes) (size : Nat) : Nat :=
  stream.length - (socket_read stream size).2.2.length

/-- The stopping point asserted by claim C3, worded from the spec:
consumption ends at whichever of the first newline byte, the first null
byte, or the size bound comes first (counting the terminator itself
when one is hit). -/
def claimed_read_stop (bs : List Nat) (size : Nat) : Nat :=
  match bs.findIdx? (fun b => b == 0 || b == 10) with
  | some i => min size (i + 1)
  | none => min size bs.length

/-! ## Helper lemmas about the read and write loops -/

/-- Once the stored symbol is a newline, the read loop stops at once. -/
theorem socketReadAux_newline_symbol (stream : List RecvRes) (fuel index : Nat)
    (acc : List Nat) :
    socketReadAux stream fuel index 10 acc = ((index : Int), acc, stream) := by
  cases fuel with
  | zero => rw [socketReadAux.eq_1]
  | succ n =>
    rw [socketReadAux.eq_def]
    simp

/-- Reading a run of non-newline bytes that exactly exhausts the size
bound: everything is stored, the rest of the stream is untouched, and
the returned value is the bound. -/
theorem socketReadAux_bytes_bound (bs : List Nat) :
    ∀ (rest : List RecvRes) (index symbol : Nat) (acc : List Nat),
      (∀ b ∈ bs, b ≠ 10) → symbol ≠ 10 →
      socketReadAux (bs.map .byte ++ rest) bs.length index symbol acc
        = (((index + bs.length : Nat) : Int), acc ++ bs, rest) := by
  induction bs with
  | nil =>
    intro rest index symbol acc _ _
    simp only [List.map_nil, List.nil_append, List.length_nil]
    rw [socketReadAux.eq_1]
    simp
  | cons b bs ih =>
    intro rest index symbol acc hb hs
    have hb' : b ≠ 10 := hb b (by simp)
    have hrec := ih rest (index + 1) b (acc ++ [b])
      (fun x hx => hb x (by simp [hx])) hb'
    simp only [List.map_cons, List.cons_append, List.length_cons]
    rw [socketReadAux.eq_def]
    simp only [hs, if_false, hrec]
    have harith : index + 1 + bs.length = index + (bs.length + 1) := by omega
    simp [harith]

/-- Reading a run of non-newline bytes followed by a newline, within the
size bound: the newline is stored and counted, and consumption stops
right after it. -/
theorem socketReadAux_bytes_line (bs : List Nat) :
    ∀ (rest : List RecvRes) (fuel index symbol : Nat) (acc : List Nat),
      (∀ b ∈ bs, b ≠ 10) → symbol ≠ 10 → bs.length < fuel →
      socketReadAux (bs.map .byte ++ .byte 10 :: rest) fuel index symbol acc
        = (((index + bs.length + 1 : Nat) : Int), acc ++ bs ++ [10], rest) := by
  induction bs with
  | nil =>
    intro rest fuel index symbol acc _ hs hf
    cases fuel with
    | zero => omega
    | succ n =>
      simp only [List.map_nil, List.nil_append]
      rw [socketReadAux.eq_def]
      simp only [hs, if_false]
      rw [socketReadAux_newline_symbol]
      simp
  | cons b bs ih =>
    intro rest fuel index symbol acc hb hs hf
    have hb' : b ≠ 10 := hb b (by simp)
    cases fuel with
    | zero => omega
    | succ n =>
      have hrec := ih rest n (index + 1) b (acc ++ [b])
        (fun x hx => hb x (by simp [hx])) hb'
        (by simp only [List.length_cons] at hf; omega)
      simp only [List.map_cons, List.cons_append]
      rw [socketReadAux.eq_def]
      simp only [hs, if_false, hrec]
      have harith : index + 1 + bs.length + 1 = index + (b :: bs).length + 1 := by
        simp
        omega
      simp [harith]

/-- Writing a run of non-terminator bytes that exactly exhausts the size
bound: all of them are transmitted and the bound is returned. -/
theorem socketWriteAux_ok_run (seg : List Nat) :
    ∀ (bufFn : Nat → Nat) (sends : Nat → SendRes) (index : Nat) (acc : List Nat),
      (∀ k, k < seg.length → bufFn (index + k) = seg.getD k 0) →
      (∀ b ∈ seg, ¬(b = 0 ∨ b = 10)) →
      (∀ k, k < seg.length → sends (index + k) = .ok) →
      socketWriteAux bufFn sends seg.length index acc
        = (((index + seg.length : Nat) : Int), acc ++ seg) := by
  induction seg with
  | nil =>
    intro bufFn sends index acc _ _ _
    rw [List.length_nil, socketWriteAux.eq_1]
    simp
  | cons b seg ih =>
    intro bufFn sends index acc hbuf hterm hsend
    have hb0 : bufFn index = b := by simpa using hbuf 0 (by simp)
    have hs0 : sends index = .ok := by simpa using hsend 0 (by simp)
    have hbterm : ¬(b = 0 ∨ b = 10) := hterm b (by simp)
    have hrec := ih bufFn sends (index + 1) (acc ++ [b])
      (fun k hk => by
        have h := hbuf (k + 1) (by simp only [List.length_cons]; omega)
        have he : index + (k + 1) = index + 1 + k := by omega
        rw [he] at h
        simpa using h)
      (fun x hx => hterm x (by simp [hx]))
      (fun k hk => by
        have h := hsend (k + 1) (by simp only [List.length_cons]; omega)
        have he : index + (k + 1) = index + 1 + k := by omega
        rw [he] at h
        exact h)
    simp only [List.length_cons]
    rw [socketWriteAux.eq_def]
    simp only [hs0, hb0, hbterm, if_false, hrec]
    have harith : index + 1 + seg.length = index + (seg.length + 1) := by omega
    simp [harith]

/-- Writing a run of non-terminator bytes followed by a terminator (null
or newline) within the size bound: the terminator is transmitted too,
but the returned value is its index, i.e. the run length. -/
theorem socketWriteAux_ok_term (seg : List Nat) :
    ∀ (bufFn : Nat → Nat) (sends : Nat → SendRes) (t fuel index : Nat)
      (acc : List Nat),
      (∀ k, k < seg.length → bufFn (index + k) = seg.getD k 0) →
      bufFn (index + seg.length) = t →
      (t = 0 ∨ t = 10) →
      (∀ b ∈ seg, ¬(b = 0 ∨ b = 10)) →
      (∀ k, k ≤ seg.length → sends (index + k) = .ok) →
      seg.length < fuel →
      socketWriteAux bufFn sends fuel index acc
        = (((index + seg.length : Nat) : Int), acc ++ seg ++ [t]) := by
  induction seg with
  | nil =>
    intro bufFn sends t fuel index acc _ hbt ht _ hsend hf
    cases fuel with
    | zero => omega
    | succ n =>
      have hs0 : sends index = .ok := by simpa using hsend 0 (by simp)
      have hb0 : bufFn index = t := by simpa using hbt
      rw [socketWriteAux.eq_def]
      simp only [hs0, hb0]
      rw [if_pos ht]
      simp
  | cons b seg ih =>
    intro bufFn sends t fuel index acc hbuf hbt ht hterm hsend hf
    cases fuel with
    | zero => omega
    | succ n =>
      have hb0 : bufFn index = b := by simpa using hbuf 0 (by simp)
      have hs0 : sends index = .ok := by simpa using hsend 0 (by simp)
      have hbterm : ¬(b = 0 ∨ b = 10) := hterm b (by simp)
      have hrec := ih bufFn sends t n (index + 1) (acc ++ [b])
        (fun k hk => by
          have h := hbuf (k + 1) (by simp only [List.length_cons]; omega)
          have he : index + (k + 1) = index + 1 + k := by omega
          rw [he] at h
          simpa using h)
        (by
          have he : index + (b :: seg).length = index + 1 + seg.length := by
            simp only [List.length_cons]
            omega
          rw [he] at hbt
          exact hbt)
        ht
        (fun x hx => hterm x (by simp [hx]))
        (fun k hk => by
          have h := hsend (k + 1) (by simp only [List.length_cons]; omega)
          have he : index + (k + 1) = index + 1 + k := by omega
          rw [he] at h
          exact h)
        (by simp only [List.length_cons] at hf; omega)
      simp only [List.length_cons]
      rw [socketWriteAux.eq_def]
      simp only [hs0, hb0, hbterm, if_false, hrec]
      have harith : index + 1 + seg.length = index + (seg.length + 1) := by omega
      simp [harith]

/-- Writing a run of non-terminator bytes whose next `send` fails: the
write is aborted with `-1`; the successfully sent bytes are the run. -/
theorem socketWriteAux_ok_err (seg : List Nat) :
    ∀ (bufFn : Nat → Nat) (sends : Nat → SendRes) (fuel index : Nat)
      (acc : List Nat),
      (∀ k, k < seg.length → bufFn (index + k) = seg.getD k 0) →
      (∀ b ∈ seg, ¬(b = 0 ∨ b = 10)) →
      (∀ k, k < seg.length → sends (index + k) = .ok) →
      sends (index + seg.length) = .err →
      seg.length < fuel →
      socketWriteAux bufFn sends fuel index acc = (-1, acc ++ seg) := by
  induction seg with
  | nil =>
    intro bufFn sends fuel index acc _ _ _ herr hf
    cases fuel with
    | zero => omega
    | succ n =>
      have hs0 : sends index = .err := by simpa using herr
      rw [socketWriteAux.eq_def]
      simp [hs0]
  | cons b seg ih =>
    intro bufFn sends fuel index acc hbuf hterm hsend herr hf
    cases fuel with
    | zero => omega
    | succ n =>
      have hb0 : bufFn index = b := by simpa using hbuf 0 (by simp)
      have hs0 : sends index = .ok := by simpa using hsend 0 (by simp)
      have hbterm : ¬(b = 0 ∨ b = 10) := hterm b (by simp)
      have hrec := ih bufFn sends n (index + 1) (acc ++ [b])
        (fun k hk => by
          have h := hbuf (k + 1) (by simp only [List.length_cons]; omega)
          have he : index + (k + 1) = index + 1 + k := by omega
          rw [he] at h
          simpa using h)
        (fun x hx => hterm x (by simp [hx]))
        (fun k hk => by
          have h := hsend (k + 1) (by simp only [List.length_cons]; omega)
          have he : index + (k + 1) = index + 1 + k := by omega
          rw [he] at h
          exact h)
        (by
          have he : index + (b :: seg).length = index + 1 + seg.length := by
            simp only [List.length_cons]
            omega
          rw [he] at herr
          exact herr)
        (by simp only [List.length_cons] at hf; omega)
      rw [socketWriteAux.eq_def]
      simp only [hs0, hb0, hbterm, if_false, hrec]
      simp

/-! ## Claim theorems -/

/-- C7: Closing an endpoint is idempotent.  Once the descriptor holds
the `-1` sentinel, any further sequence of `socket_close` calls —
whatever the `close()` syscall would have returned — is a no-op: every
call returns success (0) and the handle stays `-1`, for any number of
repetitions. -/
theorem C7_socket_close_idempotent (oks : List Bool) :
    socket_close_iter oks (-1) = (List.replicate oks.length 0, -1) := by
  induction oks with
  | nil => rfl
  | cons ok rest ih =>
    simp [socket_close_iter, socket_close, ih]
    rw [List.replicate_succ]

/-- C8: `main` returns 0 on every execution path: whatever the network
syscalls answer (socket resolution failing included) and whether or not
the FIFOs opened, the process exit status is success. -/
theorem C8_exit_status_always_zero (args : ProcomArgs) (env : MainEnv) :
    (procom_main args env).exit_code = 0 := rfl

/-- C2: for every configuration of the three descriptors, the four
selection functions of procom.c pick source and sink exactly as the
spec table of §4.2 says, and the download loop runs iff the spec table
gives it a source. -/
theorem C2_source_sink_selection (st : Fds) :
    stdin_thread_read_src st = spec_upload_src st ∧
    stdin_thread_write_sink st = spec_upload_sink st ∧
    stdout_thread_read_src st = spec_download_src st ∧
    stdout_thread_write_sink st = spec_download_sink st ∧
    (stdout_routine_runs st = true ↔ (spec_download_src st).isSome) := by
  obtain ⟨i, o, s⟩ := st
  by_cases hi : i = -1 <;> by_cases ho : o = -1 <;> by_cases hs : s = -1 <;>
    simp [stdin_thread_read_src, stdin_thread_write_sink,
      stdout_thread_read_src, stdout_thread_write_sink, stdout_routine_runs,
      spec_upload_src, spec_upload_sink, spec_download_src,
      spec_download_sink, hi, ho, hs]

/-- The common loop of both routines, run on a block of positive reads
followed by a non-positive one: it pumps each positive read, and the
non-positive read ends the loop, after which the only event is the
`pthread_kill` of the sibling — nothing from `rest` is ever touched. -/
theorem relay_loop_trace_pump (pos : List Int) :
    ∀ (sib : ThreadId) (r : Int) (rest : List Int),
      (∀ x ∈ pos, x > 0) → r ≤ 0 →
      relay_loop_trace sib (pos ++ r :: rest)
        = pump_events pos ++ [.readEv r, .killEv sib] := by
  induction pos with
  | nil =>
    intro sib r rest _ hr
    have hr' : ¬ r > 0 := by omega
    simp [relay_loop_trace, pump_events, hr']
  | cons x pos ih =>
    intro sib r rest hp hr
    have hx : x > 0 := hp x (by simp)
    have hrec := ih sib r rest (fun y hy => hp y (by simp [hy])) hr
    simp [relay_loop_trace, pump_events, hx, hrec]

/-- C6: in both transfer loops, a read returning zero or an error value
(non-positive) terminates the pumping immediately, and the terminating
loop delivers the SIGUSR1 cancellation to its sibling thread before
exiting; no read or write event follows the non-positive read.  (The
download loop's trace is taken in a configuration where it runs at
all.) -/
theorem C6_nonpositive_read_kills_sibling
    (st : Fds) (pos : List Int) (r : Int) (rest : List Int)
    (hpos : ∀ x ∈ pos, x > 0) (hr : r ≤ 0)
    (hruns : ¬(st.stdin_fifo = -1 ∧ st.sockfd = -1)) :
    stdin_routine_trace (pos ++ r :: rest)
      = pump_events pos ++ [.readEv r, .killEv .stdoutThread] ∧
    stdout_routine_trace st (pos ++ r :: rest)
      = pump_events pos ++ [.readEv r, .killEv .stdinThread] := by
  constructor
  · exact relay_loop_trace_pump pos .stdoutThread r rest hpos hr
  · rw [stdout_routine_trace, if_neg hruns]
    exact relay_loop_trace_pump pos .stdinThread r rest hpos hr

/-- Concrete instance of `C6_nonpositive_read_kills_sibling`: one
positive read of 2, then a read of 0; the later read result 7 is never
reached. -/
theorem C6_nonpositive_read_kills_sibling_witness :
    (∀ x ∈ [(2 : Int)], x > 0) ∧ (0 : Int) ≤ 0 ∧
    ¬((⟨3, -1, 4⟩ : Fds).stdin_fifo = -1 ∧ (⟨3, -1, 4⟩ : Fds).sockfd = -1) ∧
    (stdin_routine_trace ([2] ++ (0 : Int) :: [7])
      = pump_events [2] ++ [.readEv 0, .killEv .stdoutThread] ∧
     stdout_routine_trace ⟨3, -1, 4⟩ ([2] ++ (0 : Int) :: [7])
      = pump_events [2] ++ [.readEv 0, .killEv .stdinThread]) :=
  ⟨by decide, by decide, by decide,
    C6_nonpositive_read_kills_sibling ⟨3, -1, 4⟩ [2] 0 [7]
      (by decide) (by decide) (by decide)⟩

/-- `getD` of a `take` at an in-range position equals `getD` of the
original list. -/
theorem getD_take_eq (l : List Nat) (k j : Nat) (hj : j < k) (hk : k ≤ l.length) :
    (l.take k).getD j 0 = l.getD j 0 := by
  rw [List.getD_eq_getElem _ _ (by simp; omega),
      List.getD_eq_getElem _ _ (by omega : j < l.length)]
  simp [List.getElem_take]

/-- C4: writing a buffer holding a line `seg ++ [t]` whose terminator
`t` (null or newline) lies within the size bound sends the bytes one at
a time in buffer order, stops at the terminator while transmitting the
terminator itself — the wire unit is the terminated line —, and a
failing `send` (returning -1) aborts the whole write with result -1. -/
theorem C4_write_stops_at_terminator (seg : List Nat) (t : Nat) (size : Nat)
    (sends : Nat → SendRes)
    (ht : t = 0 ∨ t = 10)
    (hseg : ∀ b ∈ seg, ¬(b = 0 ∨ b = 10))
    (hsize : seg.length < size) :
    ((∀ i, sends i = .ok) →
      socket_write (fun i => (seg ++ [t]).getD i 0) sends size
        = (((seg.length : Nat) : Int), seg ++ [t])) ∧
    (∀ k, k ≤ seg.length → (∀ i, i < k → sends i = .ok) → sends k = .err →
      socket_write (fun i => (seg ++ [t]).getD i 0) sends size
        = (-1, seg.take k)) := by
  constructor
  · intro hok
    rw [socket_write]
    have h := socketWriteAux_ok_term seg (fun i => (seg ++ [t]).getD i 0) sends
      t size 0 []
      (fun k hk => by
        simp only [Nat.zero_add]
        rw [List.getD_append _ _ _ _ hk])
      (by
        simp only [Nat.zero_add]
        rw [List.getD_append_right _ _ _ _ (le_refl _)]
        simp)
      ht hseg (fun k _ => hok (0 + k)) hsize
    simpa using h
  · intro k hk hoks herr
    rw [socket_write]
    have hlen : (seg.take k).length = k := by simp [hk]
    have h := socketWriteAux_ok_err (seg.take k)
      (fun i => (seg ++ [t]).getD i 0) sends size 0 []
      (fun j hj => by
        rw [hlen] at hj
        simp only [Nat.zero_add]
        rw [List.getD_append _ _ _ _ (by omega : j < seg.length)]
        exact (getD_take_eq seg k j hj hk).symm)
      (fun b hb => hseg b (List.take_subset k seg hb))
      (fun j hj => by
        rw [hlen] at hj
        simpa using hoks j hj)
      (by
        rw [hlen]
        simpa using herr)
      (by omega)
    simpa using h

/-- Concrete instance of `C4_write_stops_at_terminator`: the line
"Hi\n" in a 1023-byte write; all sends succeed. -/
theorem C4_write_stops_at_terminator_witness :
    ((10 : Nat) = 0 ∨ (10 : Nat) = 10) ∧
    (∀ b ∈ [(72 : Nat), 105], ¬(b = 0 ∨ b = 10)) ∧
    ([(72 : Nat), 105] : List Nat).length < 1023 ∧
    socket_write (fun i => (([72, 105] : List Nat) ++ [10]).getD i 0)
        allSendsOk 1023
      = ((([(72 : Nat), 105] : List Nat).length : Int), [72, 105] ++ [10]) :=
  ⟨by decide, by decide, by decide,
    (C4_write_stops_at_terminator [72, 105] 10 1023 allSendsOk
      (by decide) (by decide) (by decide)).1 (fun _ => rfl)⟩

/-- C9: for a line terminated within the size bound, a fully successful
`socket_write` returns the index of the terminator — the count of
payload bytes excluding the terminator — although the terminator byte
itself is also transmitted, so the returned value is one less than the
number of bytes actually sent. -/
theorem C9_write_return_excludes_terminator (seg : List Nat) (t : Nat)
    (size : Nat)
    (ht : t = 0 ∨ t = 10)
    (hseg : ∀ b ∈ seg, ¬(b = 0 ∨ b = 10))
    (hsize : seg.length < size) :
    (socket_write (fun i => (seg ++ [t]).getD i 0) allSendsOk size).1
        = ((seg.length : Nat) : Int) ∧
    ((socket_write (fun i => (seg ++ [t]).getD i 0) allSendsOk size).2).length
        = seg.length + 1 := by
  have h := (C4_write_stops_at_terminator seg t size allSendsOk ht hseg hsize).1
    (fun _ => rfl)
  rw [h]
  simp

/-- Concrete instance of `C9_write_return_excludes_terminator`: the
null-terminated line "ok\0" — the write returns 2 but 3 bytes are on
the wire. -/
theorem C9_write_return_excludes_terminator_witness :
    ((0 : Nat) = 0 ∨ (0 : Nat) = 10) ∧
    (∀ b ∈ [(111 : Nat), 107], ¬(b = 0 ∨ b = 10)) ∧
    ([(111 : Nat), 107] : List Nat).length < 1023 ∧
    ((socket_write (fun i => (([111, 107] : List Nat) ++ [0]).getD i 0)
        allSendsOk 1023).1 = ((([(111 : Nat), 107] : List Nat).length : Int)) ∧
     ((socket_write (fun i => (([111, 107] : List Nat) ++ [0]).getD i 0)
        allSendsOk 1023).2).length = ([(111 : Nat), 107] : List Nat).length + 1) :=
  ⟨by decide, by decide, by decide,
    C9_write_return_excludes_terminator [111, 107] 0 1023
      (by decide) (by decide) (by decide)⟩

/-! ## Claim C3: where does `socket_read` stop? -/

/-- C3 counterexample: on the byte stream `97, 0, 98, 10` with the
callers' size 1023, the claim says the read stops at the null byte
(2 bytes consumed); `socket_read` actually consumes all 4 bytes —
a null byte does not terminate the read. -/
theorem C3_counterexample :
    socket_read [.byte 97, .byte 0, .byte 98, .byte 10] 1023
      = (4, [97, 0, 98, 10], []) ∧
    socket_read_consumed [.byte 97, .byte 0, .byte 98, .byte 10] 1023 = 4 ∧
    claimed_read_stop [97, 0, 98, 10] 1023 = 2 ∧
    ¬(socket_read_consumed [.byte 97, .byte 0, .byte 98, .byte 10] 1023
        = claimed_read_stop [97, 0, 98, 10] 1023) := by
  refine ⟨by decide, by decide, by decide, by decide⟩

/-- C3 (amended): a read from the socket stops consuming input at the
first newline byte or at the size bound, whichever comes first — the
newline is stored and counted; a null byte does not terminate the read.
With the callers' bound of 1023 bytes, at most 1023 bytes are consumed
and stored. -/
theorem C3_read_stops_at_newline_or_bound (bs : List Nat)
    (rest : List RecvRes) (size : Nat) (hbs : ∀ b ∈ bs, b ≠ 10) :
    (size ≤ bs.length →
      socket_read (bs.map .byte ++ rest) size
        = ((size : Int), bs.take size, (bs.drop size).map .byte ++ rest)) ∧
    (bs.length < size →
      socket_read (bs.map .byte ++ .byte 10 :: rest) size
        = (((bs.length + 1 : Nat) : Int), bs ++ [10], rest)) := by
  constructor
  · intro hsize
    rw [socket_read]
    have hsplit : bs.map RecvRes.byte ++ rest
        = (bs.take size).map RecvRes.byte
          ++ ((bs.drop size).map RecvRes.byte ++ rest) := by
      rw [← List.append_assoc, ← List.map_append, List.take_append_drop]
    have hlen : (bs.take size).length = size := by simp [hsize]
    have h := socketReadAux_bytes_bound (bs.take size)
      ((bs.drop size).map RecvRes.byte ++ rest) 0 0 []
      (fun b hb => hbs b (List.take_subset size bs hb)) (by omega)
    rw [hlen] at h
    rw [hsplit, h]
    simp
  · intro hsize
    rw [socket_read]
    have h := socketReadAux_bytes_line bs rest size 0 0 []
      hbs (by omega) hsize
    simpa using h

/-- Concrete instances of `C3_read_stops_at_newline_or_bound`: the
3-byte line "hey\n" read with size 1023 (newline stops it), and the
same bytes read with size 2 (the bound stops it). -/
theorem C3_read_stops_at_newline_or_bound_witness :
    (∀ b ∈ [(104 : Nat), 101, 121], b ≠ 10) ∧
    ([(104 : Nat), 101, 121] : List Nat).length < 1023 ∧
    socket_read (([104, 101, 121] : List Nat).map .byte
        ++ .byte 10 :: [.byte 120]) 1023
      = (((([(104 : Nat), 101, 121] : List Nat).length + 1 : Nat) : Int),
         [104, 101, 121] ++ [10], [.byte 120]) ∧
    (2 : Nat) ≤ ([(104 : Nat), 101, 121] : List Nat).length ∧
    socket_read (([104, 101, 121] : List Nat).map .byte ++ [.byte 120]) 2
      = ((2 : Int), ([104, 101, 121] : List Nat).take 2,
         (([104, 101, 121] : List Nat).drop 2).map .byte ++ [.byte 120]) :=
  ⟨by decide, by decide,
    (C3_read_stops_at_newline_or_bound [104, 101, 121] [.byte 120] 1023
      (by decide)).2 (by decide),
    by decide,
    (C3_read_stops_at_newline_or_bound [104, 101, 121] [.byte 120] 2
      (by decide)).1 (by decide)⟩

/-- C5: with every `send` succeeding, a line of exactly 1023 payload
bytes (no nulls or newlines in the payload) passes through one
read-then-write relay step intact: the read fills the buffer with
exactly the payload and the write puts exactly the payload on the wire,
in order.  A 2000-byte line is truncated deterministically at the
1023-byte boundary: the step reads and emits exactly the first 1023
bytes — nothing past the boundary enters the buffer (no overflow) and
nothing past it is emitted in this step; the remaining bytes stay in
the incoming stream. -/
theorem C5_boundary_lines (payload long : List Nat) (rest rest2 : List RecvRes)
    (hp : payload.length = 1023) (hpl : ∀ b ∈ payload, ¬(b = 0 ∨ b = 10))
    (hl : long.length = 2000) (hll : ∀ b ∈ long, ¬(b = 0 ∨ b = 10)) :
    relay_step (payload.map .byte ++ .byte 10 :: rest) allSendsOk
      = (1023, payload, .byte 10 :: rest) ∧
    relay_step (long.map .byte ++ .byte 10 :: rest2) allSendsOk
      = (1023, long.take 1023,
         (long.drop 1023).map .byte ++ .byte 10 :: rest2) := by
  have hread1 :
      socket_read (payload.map .byte ++ .byte 10 :: rest) 1023
        = (1023, payload, .byte 10 :: rest) := by
    rw [socket_read, ← hp]
    have h := socketReadAux_bytes_bound payload (.byte 10 :: rest) 0 0 []
      (fun b hb => fun hb10 => hpl b hb (Or.inr hb10)) (by omega)
    rw [h]
    simp [hp]
  have hwrite1 :
      socket_write (fun i => payload.getD i 0) allSendsOk 1023
        = (1023, payload) := by
    rw [socket_write, ← hp]
    have h := socketWriteAux_ok_run payload (fun i => payload.getD i 0)
      allSendsOk 0 []
      (fun k _ => by simp) hpl (fun k _ => rfl)
    rw [h]
    simp [hp]
  have hsplit : long.map RecvRes.byte ++ .byte 10 :: rest2
      = (long.take 1023).map RecvRes.byte
        ++ ((long.drop 1023).map RecvRes.byte ++ .byte 10 :: rest2) := by
    rw [← List.append_assoc, ← List.map_append, List.take_append_drop]
  have hlen : (long.take 1023).length = 1023 := by simp [hl]
  have hread2 :
      socket_read (long.map .byte ++ .byte 10 :: rest2) 1023
        = (1023, long.take 1023,
           (long.drop 1023).map .byte ++ .byte 10 :: rest2) := by
    rw [socket_read, hsplit]
    have h := socketReadAux_bytes_bound (long.take 1023)
      ((long.drop 1023).map RecvRes.byte ++ .byte 10 :: rest2) 0 0 []
      (fun b hb => fun hb10 =>
        hll b (List.take_subset 1023 long hb) (Or.inr hb10)) (by omega)
    rw [hlen] at h
    rw [h]
    simp
  have hwrite2 :
      socket_write (fun i => (long.take 1023).getD i 0) allSendsOk 1023
        = (1023, long.take 1023) := by
    rw [socket_write]
    have h := socketWriteAux_ok_run (long.take 1023)
      (fun i => (long.take 1023).getD i 0) allSendsOk 0 []
      (fun k _ => by simp)
      (fun b hb => hll b (List.take_subset 1023 long hb))
      (fun k _ => rfl)
    rw [hlen] at h
    rw [h]
    simp
  constructor
  · rw [relay_step, hread1]
    simp only [if_pos (by omega : (1023 : Int) > 0)]
    rw [hwrite1]
  · rw [relay_step, hread2]
    simp only [if_pos (by omega : (1023 : Int) > 0)]
    rw [hwrite2]

/-- Concrete instance of `C5_boundary_lines`: a 1023-byte line of 'A's
and a 2000-byte line of 'B's. -/
theorem C5_boundary_lines_witness :
    (List.replicate 1023 65).length = 1023 ∧
    (∀ b ∈ List.replicate 1023 65, ¬(b = 0 ∨ b = 10)) ∧
    (List.replicate 2000 66).length = 2000 ∧
    (∀ b ∈ List.replicate 2000 66, ¬(b = 0 ∨ b = 10)) ∧
    (relay_step ((List.replicate 1023 65).map .byte ++ .byte 10 :: []) allSendsOk
      = (1023, List.replicate 1023 65, .byte 10 :: []) ∧
     relay_step ((List.replicate 2000 66).map .byte ++ .byte 10 :: []) allSendsOk
      = (1023, (List.replicate 2000 66).take 1023,
         ((List.replicate 2000 66).drop 1023).map .byte ++ .byte 10 :: [])) :=
  ⟨List.length_replicate 1023 65, by
    intro b hb
    rw [List.eq_of_mem_replicate hb]
    decide,
   List.length_replicate 2000 66, by
    intro b hb
    rw [List.eq_of_mem_replicate hb]
    decide,
   C5_boundary_lines (List.replicate 1023 65) (List.replicate 2000 66) [] []
     (List.length_replicate 1023 65)
     (by
       intro b hb
       rw [List.eq_of_mem_replicate hb]
       decide)
     (List.length_replicate 2000 66)
     (by
       intro b hb
       rw [List.eq_of_mem_replicate hb]
       decide)⟩

set_option maxHeartbeats 1600000 in
/-- C1: the role negotiation (a) always performs the client connection
attempt first — its syscalls are an initial segment of the whole trace;
(b) when the client connection succeeds the whole trace is just that
attempt — no server socket, bind, listen or accept happens — and the
resolution completes with status 0; (c) only when the client attempt
fails does server-socket creation (with its bind and listen) run,
immediately after it; (d) any `listen` issued has backlog 1; (e) when
the server socket exists but bind or listen fails, resolution fails
with a nonzero status and neither descriptor holds an open socket; and
(f) once listen succeeded, exactly one `accept` is issued, and its
success completes the resolution with status 0 and the accepted
descriptor as the socket endpoint. -/
theorem C1_role_negotiation (env : NetEnv) (servfd0 : Int) :
    ((client_or_server_socket_create env servfd0).trace.take
        (client_socket_create env).2.length = (client_socket_create env).2) ∧
    ((client_socket_create env).1 ≠ -1 →
      (client_or_server_socket_create env servfd0).trace
          = (client_socket_create env).2 ∧
      (client_or_server_socket_create env servfd0).status = 0 ∧
      (client_or_server_socket_create env servfd0).sockfd
          = (client_socket_create env).1) ∧
    ((client_socket_create env).1 = -1 →
      (client_or_server_socket_create env servfd0).trace.take
          ((client_socket_create env).2.length
            + (server_socket_create env).2.length)
        = (client_socket_create env).2 ++ (server_socket_create env).2) ∧
    (∀ b ok, NetEv.listenEv b ok
        ∈ (client_or_server_socket_create env servfd0).trace → b = 1) ∧
    ((client_socket_create env).1 = -1 → env.servSockFd ≠ -1 →
      ¬(env.bindOk = true ∧ env.listenOk = true) →
      (client_or_server_socket_create env servfd0).status ≠ 0 ∧
      (client_or_server_socket_create env servfd0).sockfd = -1 ∧
      (client_or_server_socket_create env servfd0).servfd = -1) ∧
    ((client_socket_create env).1 = -1 → env.servSockFd ≠ -1 →
      env.bindOk = true → env.listenOk = true →
      ((client_or_server_socket_create env servfd0).trace.countP
          (fun e => e.isAccept) = 1 ∧
       (env.acceptFd ≠ -1 →
         (client_or_server_socket_create env servfd0).status = 0 ∧
         (client_or_server_socket_create env servfd0).sockfd
           = env.acceptFd))) := by
  obtain ⟨cfd, cok, sfd, bok, lok, afd, clok⟩ := env
  cases cok <;> cases bok <;> cases lok <;>
    by_cases h1 : cfd = -1 <;> by_cases h2 : sfd = -1 <;>
    by_cases h3 : afd = -1 <;>
    simp [client_or_server_socket_create, client_socket_create,
      server_socket_create, socket_accept, socket_close,
      NetEv.isServerSetup, NetEv.isAccept, h1, h2, h3]

/-- Concrete instance of `C1_role_negotiation` (conjunct (e)): connect
fails, the server socket is fd 4, and `bind` fails — resolution fails
and no socket endpoint is left. -/
theorem C1_role_negotiation_witness :
    ((client_socket_create ⟨3, false, 4, false, true, -1, true⟩).1 = -1) ∧
    ((⟨3, false, 4, false, true, -1, true⟩ : NetEnv).servSockFd ≠ -1) ∧
    ¬((⟨3, false, 4, false, true, -1, true⟩ : NetEnv).bindOk = true ∧
      (⟨3, false, 4, false, true, -1, true⟩ : NetEnv).listenOk = true) ∧
    ((client_or_server_socket_create
        ⟨3, false, 4, false, true, -1, true⟩ (-1)).status ≠ 0 ∧
     (client_or_server_socket_create
        ⟨3, false, 4, false, true, -1, true⟩ (-1)).sockfd = -1 ∧
     (client_or_server_socket_create
        ⟨3, false, 4, false, true, -1, true⟩ (-1)).servfd = -1) :=
  ⟨by decide, by decide, by decide,
    (C1_role_negotiation ⟨3, false, 4, false, true, -1, true⟩ (-1)).2.2.2.2.1
      (by decide) (by decide) (by decide)⟩

/-- C10 counterexample: connect fails, the server socket (fd 4) binds
and listens, `accept` fails, and the `close()` syscall in the cleanup
also fails: `client_or_server_socket_create` returns status 2 with
`*servfd` still holding 4 — not the `-1` sentinel the claim asserts
for every failure return. -/
theorem C10_counterexample :
    (client_or_server_socket_create
        ⟨3, false, 4, true, true, -1, false⟩ (-1)).status ≠ 0 ∧
    ¬((client_or_server_socket_create
        ⟨3, false, 4, true, true, -1, false⟩ (-1)).sockfd = -1 ∧
      (client_or_server_socket_create
        ⟨3, false, 4, true, true, -1, false⟩ (-1)).servfd = -1) ∧
    (client_or_server_socket_create
        ⟨3, false, 4, true, true, -1, false⟩ (-1)).servfd = 4 := by
  refine ⟨by decide, by decide, by decide⟩

set_option maxHeartbeats 1600000 in
/-- C10 (amended): whenever `client_or_server_socket_create` returns a
nonzero status, `*sockfd` is `-1`; on status 1 `*servfd` is `-1` as
well; on status 2 (accept failure) `socket_close` is invoked on the
listening descriptor before returning — its close event is in the
trace — and whenever that `close()` call succeeds (the normal case)
`*servfd` is also left at `-1`.  Only a failing `close()` syscall can
leave `*servfd` holding the old descriptor. -/
theorem C10_no_leak_on_failure (env : NetEnv) (servfd0 : Int)
    (h : (client_or_server_socket_create env servfd0).status ≠ 0) :
    (client_or_server_socket_create env servfd0).sockfd = -1 ∧
    ((client_or_server_socket_create env servfd0).status = 1 →
      (client_or_server_socket_create env servfd0).servfd = -1) ∧
    ((client_or_server_socket_create env servfd0).status = 2 →
      NetEv.closeEv (server_socket_create env).1
          ∈ (client_or_server_socket_create env servfd0).trace ∧
      (env.closeOk = true →
        (client_or_server_socket_create env servfd0).servfd = -1)) := by
  obtain ⟨cfd, cok, sfd, bok, lok, afd, clok⟩ := env
  cases cok <;> cases bok <;> cases lok <;> cases clok <;>
    by_cases h1 : cfd = -1 <;> by_cases h2 : sfd = -1 <;>
    by_cases h3 : afd = -1 <;>
    simp_all [client_or_server_socket_create, client_socket_create,
      server_socket_create, socket_accept, socket_close]

/-- Concrete instance of `C10_no_leak_on_failure`: bind fails (status
1); both descriptors end at -1. -/
theorem C10_no_leak_on_failure_witness :
    ((client_or_server_socket_create
        ⟨7, false, 9, false, true, -1, true⟩ (-1)).status ≠ 0) ∧
    ((client_or_server_socket_create
        ⟨7, false, 9, false, true, -1, true⟩ (-1)).sockfd = -1 ∧
     ((client_or_server_socket_create
        ⟨7, false, 9, false, true, -1, true⟩ (-1)).status = 1 →
      (client_or_server_socket_create
        ⟨7, false, 9, false, true, -1, true⟩ (-1)).servfd = -1) ∧
     ((client_or_server_socket_create
        ⟨7, false, 9, false, true, -1, true⟩ (-1)).status = 2 →
      NetEv.closeEv (server_socket_create ⟨7, false, 9, false, true, -1, true⟩).1
          ∈ (client_or_server_socket_create
              ⟨7, false, 9, false, true, -1, true⟩ (-1)).trace ∧
      ((⟨7, false, 9, false, true, -1, true⟩ : NetEnv).closeOk = true →
        (client_or_server_socket_create
          ⟨7, false, 9, false, true, -1, true⟩ (-1)).servfd = -1))) :=
  ⟨by decide,
    C10_no_leak_on_failure ⟨7, false, 9, false, true, -1, true⟩ (-1) (by decide)⟩
